import Mathlib

/-!
Verification of the slide-deck structure-classification engine (`parser.py`).

Strings are modelled as `List Char` of Unicode code points (Python `str`).
Character-class restrictions used throughout, stated once here:

* Python's `\s` (regex), `str.strip()` and `str.isspace()` match all Unicode
  whitespace.  In this development they are modelled by the ASCII whitespace
  set {9, 10, 11, 12, 13, 32}.  Every string fed to these operations by the
  program either has been through the sanitizer `_clean_text` (whose output
  contains no non-ASCII whitespace: the kept CJK ranges and glyph lists
  contain no Unicode whitespace character) or, in the concrete inputs used
  below, contains only ASCII and CJK-ideograph characters, on which the two
  notions coincide.
* Python's `\d` and `str.isdigit()` match all Unicode decimal digits; they are
  modelled by the ASCII digits 0-9.  No input considered here contains a
  non-ASCII digit.
* Python's `str.lower()` is modelled as ASCII lowercasing (A-Z to a-z).  All
  keyword tables of the source are ASCII-lowercase or CJK, and no input used
  here contains a cased non-ASCII letter.
* Python regex `.` matches any character except a newline; `$` is modelled as
  end of string (Python additionally lets `$` match before one trailing
  newline; no string considered here contains a newline, since shape texts
  pass through `_clean_text`, which eliminates newlines).
-/

namespace PPT

/-- A Python string as a list of Unicode code points. -/
abbrev Str := List Char

/-- Whitespace as matched by Python `\s` / `str.strip()` (ASCII restriction,
see the header). -/
def pyWs (c : Char) : Prop :=
  c.toNat = 9 ∨ c.toNat = 10 ∨ c.toNat = 11 ∨ c.toNat = 12 ∨ c.toNat = 13 ∨ c.toNat = 32

instance : DecidablePred pyWs := fun c => by unfold pyWs; infer_instance

/-- ASCII decimal digit, the model of Python regex `\d` (see the header). -/
def isDigitC (c : Char) : Bool := 48 ≤ c.toNat && c.toNat ≤ 57

/-- ASCII uppercase letter, regex `[A-Z]`. -/
def isUpperC (c : Char) : Bool := 65 ≤ c.toNat && c.toNat ≤ 90

/-- ASCII lowercase letter, regex `[a-z]`. -/
def isLowerC (c : Char) : Bool := 97 ≤ c.toNat && c.toNat ≤ 122

/-- ASCII letter, regex `[a-zA-Z]`. -/
def isLetterC (c : Char) : Bool := isUpperC c || isLowerC c

/-- CJK ideograph as matched by the source's regex class `[一-龥]`
(used by the two character-count functions). -/
def isCjkCount (c : Char) : Bool := 0x4e00 ≤ c.toNat && c.toNat ≤ 0x9fa5

/-- Python `str.lower()` on one character (ASCII restriction, see header). -/
def lowerChar (c : Char) : Char :=
  if 65 ≤ c.toNat ∧ c.toNat ≤ 90 then Char.ofNat (c.toNat + 32) else c

/-- Python `str.lower()`. -/
def lowerStr (s : Str) : Str := s.map lowerChar

/-- Python substring containment `pat in s`. -/
def pyIn (pat : Str) : Str → Bool
  | [] => pat.isPrefixOf []
  | c :: t => pat.isPrefixOf (c :: t) || pyIn pat t

/-- Python `" ".join(xs)`. -/
def joinSp (xs : List Str) : Str := List.intercalate ([' ']) xs

/-- Removes trailing whitespace (the right half of Python `str.strip()`). -/
def trimEnd : Str → Str
  | [] => []
  | c :: rest =>
    match trimEnd rest with
    | [] => if pyWs c then [] else [c]
    | r => c :: r

/-- Python `str.strip()`: drop leading and trailing whitespace. -/
def pyStrip (s : Str) : Str := trimEnd (s.dropWhile (fun c => decide (pyWs c)))

/-! ## TextSanitizer: `_clean_text` (parser.py lines 195-234) -/

/-- The bullet glyphs kept by `_clean_text` (first explicit character list). -/
def bulletGlyphs : List Char :=
  ['•', '◦', '▪', '‣', '⁃', '∙', '○', '◉', '◎', '✓', '✔', '→', '➔', '➜', '➤']

/-- The CJK punctuation kept by `_clean_text` (second explicit list). -/
def cnPunct : List Char :=
  ['、', '。', '，', '；', '：', '？', '！', '「', '」', '『', '』', '（', '）', '【', '】', '《', '》']

/-- The further special characters kept by `_clean_text` (third explicit
list; the source list repeats a few characters, which is irrelevant for
membership). -/
def extraPunct : List Char :=
  ['·', '•', '…', '—', '～', '＇', '＂', '＃', '＄', '％', '＆', '＇', '（', '）', '＊', '＋', '，', '－', '．', '／']

/-- A character kept verbatim by the per-character phase of `_clean_text`:
tab/newline/CR, printable ASCII, the four CJK ranges, fullwidth forms, and
the three explicit keep-lists.  Every other character becomes a space. -/
def allowedChar (c : Char) : Prop :=
  c.toNat = 9 ∨ c.toNat = 10 ∨ c.toNat = 13
    ∨ (32 ≤ c.toNat ∧ c.toNat ≤ 126)
    ∨ (0x4e00 ≤ c.toNat ∧ c.toNat ≤ 0x9fff)
    ∨ (0x3040 ≤ c.toNat ∧ c.toNat ≤ 0x309F)
    ∨ (0x30A0 ≤ c.toNat ∧ c.toNat ≤ 0x30FF)
    ∨ (0xAC00 ≤ c.toNat ∧ c.toNat ≤ 0xD7AF)
    ∨ (0xFF00 ≤ c.toNat ∧ c.toNat ≤ 0xFFEF)
    ∨ c ∈ bulletGlyphs ∨ c ∈ cnPunct ∨ c ∈ extraPunct

instance : DecidablePred allowedChar := fun c => by unfold allowedChar; infer_instance

/-- The per-character phase of `_clean_text`: keep an allowed character,
replace anything else by one space. -/
def cleanChar (c : Char) : Char := if allowedChar c then c else ' '

/-- Python `re.sub(r'\s+', ' ', s)`: each maximal run of whitespace becomes a
single space (positionally, the run's last character survives as a space). -/
def collapseWs : Str → Str
  | [] => []
  | c :: rest =>
    if pyWs c then
      match rest with
      | [] => [' ']
      | d :: _ => if pyWs d then collapseWs rest else ' ' :: collapseWs rest
    else c :: collapseWs rest

/-- Source function `_clean_text`: the text sanitizer.  Empty input short-circuits (the
`if not text` guard); otherwise characters are filtered/replaced, whitespace
runs are collapsed and the ends are stripped. -/
def clean_text (s : Str) : Str :=
  if s = [] then []
  else pyStrip (collapseWs (s.map cleanChar))

/-! ### Properties of the sanitizer -/

/-- Adjacent characters are not both whitespace. -/
def noWsPair (a b : Char) : Prop := ¬(pyWs a ∧ pyWs b)

theorem allowedChar_space : allowedChar ' ' := by decide

theorem collapseWs_ws_nil {c : Char} (hc : pyWs c) : collapseWs [c] = [' '] := by
  simp only [collapseWs]
  rw [if_pos hc]

theorem collapseWs_ws_ws {c d : Char} (t : Str) (hc : pyWs c) (hd : pyWs d) :
    collapseWs (c :: d :: t) = collapseWs (d :: t) := by
  simp only [collapseWs]
  rw [if_pos hc, if_pos hd]

theorem collapseWs_ws_not {c d : Char} (t : Str) (hc : pyWs c) (hd : ¬ pyWs d) :
    collapseWs (c :: d :: t) = ' ' :: collapseWs (d :: t) := by
  simp only [collapseWs]
  rw [if_pos hc, if_neg hd]

theorem collapseWs_cons_not {c : Char} (rest : Str) (hc : ¬ pyWs c) :
    collapseWs (c :: rest) = c :: collapseWs rest := by
  simp only [collapseWs]
  rw [if_neg hc]

theorem mem_collapseWs {a : Char} : ∀ {s : Str}, a ∈ collapseWs s → a = ' ' ∨ a ∈ s := by
  intro s
  induction s with
  | nil => intro h; simp [collapseWs] at h
  | cons c rest ih =>
    by_cases hc : pyWs c
    · cases rest with
      | nil =>
        rw [collapseWs_ws_nil hc]
        intro h
        exact Or.inl (List.mem_singleton.1 h)
      | cons d t =>
        by_cases hd : pyWs d
        · rw [collapseWs_ws_ws t hc hd]
          intro h
          rcases ih h with h1 | h2
          · exact Or.inl h1
          · exact Or.inr (List.mem_cons_of_mem c h2)
        · rw [collapseWs_ws_not t hc hd]
          intro h
          rcases List.mem_cons.1 h with rfl | h2
          · exact Or.inl rfl
          · rcases ih h2 with h1 | h3
            · exact Or.inl h1
            · exact Or.inr (List.mem_cons_of_mem c h3)
    · rw [collapseWs_cons_not rest hc]
      intro h
      rcases List.mem_cons.1 h with rfl | h2
      · exact Or.inr (List.mem_cons_self a rest)
      · rcases ih h2 with h1 | h3
        · exact Or.inl h1
        · exact Or.inr (List.mem_cons_of_mem c h3)

theorem ws_mem_collapseWs {a : Char} :
    ∀ {s : Str}, a ∈ collapseWs s → pyWs a → a = ' ' := by
  intro s
  induction s with
  | nil => intro h; simp [collapseWs] at h
  | cons c rest ih =>
    by_cases hc : pyWs c
    · cases rest with
      | nil =>
        rw [collapseWs_ws_nil hc]
        intro h _
        exact List.mem_singleton.1 h
      | cons d t =>
        by_cases hd : pyWs d
        · rw [collapseWs_ws_ws t hc hd]; exact ih
        · rw [collapseWs_ws_not t hc hd]
          intro h hw
          rcases List.mem_cons.1 h with rfl | h2
          · rfl
          · exact ih h2 hw
    · rw [collapseWs_cons_not rest hc]
      intro h hw
      rcases List.mem_cons.1 h with rfl | h2
      · exact absurd hw hc
      · exact ih h2 hw

theorem chain'_collapseWs : ∀ s : Str, List.Chain' noWsPair (collapseWs s) := by
  intro s
  induction s with
  | nil => simp [collapseWs]
  | cons c rest ih =>
    by_cases hc : pyWs c
    · cases rest with
      | nil =>
        rw [collapseWs_ws_nil hc]
        simp [List.chain'_singleton]
      | cons d t =>
        by_cases hd : pyWs d
        · rw [collapseWs_ws_ws t hc hd]; exact ih
        · rw [collapseWs_ws_not t hc hd]
          refine List.chain'_cons'.2 ⟨?_, ih⟩
          intro y hy
          rw [collapseWs_cons_not t hd] at hy
          simp only [List.head?_cons, Option.mem_def, Option.some.injEq] at hy
          subst hy
          exact fun hpair => hd hpair.2
    · rw [collapseWs_cons_not rest hc]
      refine List.chain'_cons'.2 ⟨?_, ih⟩
      intro y _
      exact fun hpair => hc hpair.1

theorem collapseWs_fix :
    ∀ {s : Str}, (∀ c ∈ s, pyWs c → c = ' ') → List.Chain' noWsPair s →
      collapseWs s = s := by
  intro s
  induction s with
  | nil => intros; rfl
  | cons c rest ih =>
    intro hws hch
    by_cases hc : pyWs c
    · have hceq : c = ' ' := hws c (List.mem_cons_self c rest) hc
      cases rest with
      | nil => rw [collapseWs_ws_nil hc, hceq]
      | cons d t =>
        have hd : ¬ pyWs d := by
          have hR := (List.chain'_cons'.1 hch).1 d (by simp)
          intro hdw
          exact hR ⟨hc, hdw⟩
        rw [collapseWs_ws_not t hc hd, hceq]
        have htail := ih (fun x hx => hws x (List.mem_cons_of_mem c hx)) (List.chain'_cons'.1 hch).2
        rw [htail]
    · rw [collapseWs_cons_not rest hc]
      have htail := ih (fun x hx => hws x (List.mem_cons_of_mem c hx)) (List.chain'_cons'.1 hch).2
      rw [htail]

theorem trimEnd_cons (c : Char) (rest : Str) :
    trimEnd (c :: rest) =
      match trimEnd rest with
      | [] => if pyWs c then [] else [c]
      | r => c :: r := rfl

theorem trimEnd_cons_of_nil {rest : Str} (c : Char) (heq : trimEnd rest = []) :
    trimEnd (c :: rest) = if pyWs c then [] else [c] := by
  rw [trimEnd_cons, heq]

theorem trimEnd_cons_of_ne {rest : Str} {r : Char} {rs : Str} (c : Char)
    (heq : trimEnd rest = r :: rs) :
    trimEnd (c :: rest) = c :: r :: rs := by
  rw [trimEnd_cons, heq]

theorem trimEnd_prefix_self : ∀ s : Str, trimEnd s <+: s := by
  intro s
  induction s with
  | nil => exact List.prefix_refl []
  | cons c rest ih =>
    cases heq : trimEnd rest with
    | nil =>
      rw [trimEnd_cons_of_nil c heq]
      split
      · exact List.nil_prefix
      · exact ⟨rest, rfl⟩
    | cons r rs =>
      rw [trimEnd_cons_of_ne c heq]
      have hpre : r :: rs <+: rest := heq ▸ ih
      rcases hpre with ⟨t2, ht⟩
      exact ⟨t2, by rw [List.cons_append, ht]⟩

theorem mem_trimEnd {a : Char} {s : Str} (h : a ∈ trimEnd s) : a ∈ s :=
  (trimEnd_prefix_self s).sublist.mem h

theorem chain'_trimEnd {s : Str} (h : List.Chain' noWsPair s) :
    List.Chain' noWsPair (trimEnd s) :=
  h.prefix (trimEnd_prefix_self s)

theorem getLast?_trimEnd_not_ws :
    ∀ {s : Str} {c : Char}, (trimEnd s).getLast? = some c → ¬ pyWs c := by
  intro s
  induction s with
  | nil => intro c h; simp [trimEnd] at h
  | cons x rest ih =>
    intro c h
    rcases heq : trimEnd rest with _ | ⟨r, rs⟩
    · rw [trimEnd_cons_of_nil x heq] at h
      split at h
      · simp at h
      · next hx =>
        simp only [List.getLast?_singleton, Option.some.injEq] at h
        subst h
        exact hx
    · rw [trimEnd_cons_of_ne x heq] at h
      rw [List.getLast?_cons_cons] at h
      exact ih (heq ▸ h)

theorem trimEnd_eq_self :
    ∀ {s : Str}, (∀ c, s.getLast? = some c → ¬ pyWs c) → trimEnd s = s := by
  intro s
  induction s with
  | nil => intro; rfl
  | cons x rest ih =>
    intro h
    cases rest with
    | nil =>
      have hx : ¬ pyWs x := h x rfl
      have hnil : trimEnd ([] : Str) = [] := rfl
      rw [trimEnd_cons_of_nil x hnil, if_neg hx]
    | cons y t =>
      have h' : ∀ c, (y :: t).getLast? = some c → ¬ pyWs c := by
        intro c hc
        exact h c (by rw [List.getLast?_cons_cons]; exact hc)
      have ht : trimEnd (y :: t) = y :: t := ih h'
      rw [trimEnd_cons_of_ne x ht]

theorem head?_trimEnd (s : Str) : trimEnd s = [] ∨ (trimEnd s).head? = s.head? := by
  cases s with
  | nil => exact Or.inl rfl
  | cons x rest =>
    cases heq : trimEnd rest with
    | nil =>
      by_cases hx : pyWs x
      · left
        rw [trimEnd_cons_of_nil x heq, if_pos hx]
      · right
        rw [trimEnd_cons_of_nil x heq, if_neg hx]
        rfl
    | cons r rs =>
      right
      rw [trimEnd_cons_of_ne x heq]
      rfl

theorem head?_dropWhile_not_ws :
    ∀ {s : Str} {c : Char},
      (s.dropWhile (fun c => decide (pyWs c))).head? = some c → ¬ pyWs c := by
  intro s
  induction s with
  | nil => intro c h; simp [List.dropWhile] at h
  | cons x rest ih =>
    intro c h
    by_cases hx : pyWs x
    · rw [List.dropWhile_cons, if_pos (by simpa using hx)] at h
      exact ih h
    · rw [List.dropWhile_cons, if_neg (by simpa using hx)] at h
      simp only [List.head?_cons, Option.some.injEq] at h
      subst h
      exact hx

theorem dropWhile_ws_eq_self {s : Str}
    (h : ∀ c, s.head? = some c → ¬ pyWs c) :
    s.dropWhile (fun c => decide (pyWs c)) = s := by
  cases s with
  | nil => rfl
  | cons x rest =>
    have hx : ¬ pyWs x := h x rfl
    rw [List.dropWhile_cons, if_neg (by simpa using hx)]

/-- The shape of sanitizer output: only allowed characters, no two adjacent
whitespace characters, every whitespace character is a plain space, and the
ends are not whitespace. -/
def sanitized (s : Str) : Prop :=
  (∀ c ∈ s, allowedChar c) ∧ List.Chain' noWsPair s ∧
    (∀ c ∈ s, pyWs c → c = ' ') ∧
    (∀ c, s.head? = some c → ¬ pyWs c) ∧
    (∀ c, s.getLast? = some c → ¬ pyWs c)

theorem sanitized_clean (s : Str) : sanitized (clean_text s) := by
  unfold clean_text
  split
  · exact ⟨by simp, by simp, by simp, by simp, by simp⟩
  · unfold pyStrip
    set X := collapseWs (s.map cleanChar) with hX
    refine ⟨?_, ?_, ?_, ?_, ?_⟩
    · intro c hc
      have hmem : c ∈ X := (List.dropWhile_suffix _).sublist.mem (mem_trimEnd hc)
      rcases mem_collapseWs hmem with rfl | hmap
      · exact allowedChar_space
      · rcases List.mem_map.1 hmap with ⟨a, _, rfl⟩
        unfold cleanChar
        split
        · assumption
        · exact allowedChar_space
    · exact chain'_trimEnd ((chain'_collapseWs _).suffix (List.dropWhile_suffix _))
    · intro c hc hw
      have hmem : c ∈ X := (List.dropWhile_suffix _).sublist.mem (mem_trimEnd hc)
      exact ws_mem_collapseWs hmem hw
    · intro c hc
      rcases head?_trimEnd (X.dropWhile (fun c => decide (pyWs c))) with hnil | hhd
      · rw [hnil] at hc; simp at hc
      · exact head?_dropWhile_not_ws (hhd ▸ hc)
    · intro c hc
      exact getLast?_trimEnd_not_ws hc

theorem clean_text_fix {s : Str} (h : sanitized s) : clean_text s = s := by
  obtain ⟨hall, hch, hws, hhd, hlast⟩ := h
  unfold clean_text
  split
  · next heq => exact heq.symm
  · have hmap : s.map cleanChar = s := by
      have : ∀ c ∈ s, cleanChar c = c := by
        intro c hc
        unfold cleanChar
        rw [if_pos (hall c hc)]
      calc s.map cleanChar = s.map id := List.map_congr_left this
        _ = s := List.map_id s
    rw [hmap, collapseWs_fix hws hch]
    unfold pyStrip
    rw [dropWhile_ws_eq_self hhd, trimEnd_eq_self hlast]

/-- The allow-list declared by the specification for sanitizer output:
printable ASCII 32-126, the CJK ranges kept by the sanitizer, the fixed
bullet-glyph and CJK-punctuation lists, and the space character. -/
def specAllowList (c : Char) : Prop :=
  (32 ≤ c.toNat ∧ c.toNat ≤ 126)
    ∨ (0x4e00 ≤ c.toNat ∧ c.toNat ≤ 0x9fff)
    ∨ (0x3040 ≤ c.toNat ∧ c.toNat ≤ 0x309F)
    ∨ (0x30A0 ≤ c.toNat ∧ c.toNat ≤ 0x30FF)
    ∨ (0xAC00 ≤ c.toNat ∧ c.toNat ≤ 0xD7AF)
    ∨ (0xFF00 ≤ c.toNat ∧ c.toNat ≤ 0xFFEF)
    ∨ c ∈ bulletGlyphs ∨ c ∈ cnPunct ∨ c ∈ extraPunct ∨ c = ' '

instance : DecidablePred specAllowList := fun c => by unfold specAllowList; infer_instance

theorem allowed_not_ws_spec {c : Char} (hall : allowedChar c) (hws : pyWs c → c = ' ') :
    specAllowList c := by
  by_cases hw : pyWs c
  · rw [hws hw]
    unfold specAllowList
    exact Or.inl (by decide)
  · unfold allowedChar at hall
    unfold specAllowList
    unfold pyWs at hw
    push_neg at hw
    obtain ⟨h9, h10, _, _, h13, _⟩ := hw
    rcases hall with h | h | h | h | h | h | h | h | h | h | h | h
    · exact absurd h h9
    · exact absurd h h10
    · exact absurd h h13
    all_goals simp [h]

/-- C8: the text sanitizer `_clean_text` is idempotent; cleaning an already
cleaned string changes nothing. -/
theorem clean_text_idempotent : ∀ s : Str, clean_text (clean_text s) = clean_text s :=
  fun s => clean_text_fix (sanitized_clean s)

/-- C9: every code point in the output of the sanitizer `_clean_text` belongs
to the declared allow-list (printable ASCII 32-126, the kept CJK ranges, the
fixed bullet-glyph and CJK-punctuation lists, and the space character); in
particular the tab, newline and CR characters that the per-character phase
keeps are always collapsed into spaces before the output is produced. -/
theorem clean_text_allowlist : ∀ (s : Str), ∀ c ∈ clean_text s, specAllowList c := by
  intro s c hc
  obtain ⟨hall, _, hws, _, _⟩ := sanitized_clean s
  exact allowed_not_ws_spec (hall c hc) (hws c hc)

/-- Witness for C9: a concrete evaluation of the sanitizer on an input
containing a control character, checked against the allow-list. -/
theorem clean_text_allowlist_witness :
    'b' ∈ clean_text ('a' :: Char.ofNat 1 :: 'b' :: []) ∧ specAllowList 'b' :=
  ⟨by decide, clean_text_allowlist ('a' :: Char.ofNat 1 :: 'b' :: []) 'b' (by decide)⟩

/-! ## Data model

`SlideContent` mirrors the pydantic model of the source (the per-slide
record produced by `_parse_slide_enhanced`): 0-based slide number, sanitized
title, non-bullet text blocks (`content`), bullet text blocks
(`bullet_points`), image reference tokens, speaker notes and the naive
heading level.  `SlideStructure` mirrors the per-slide result of
`_analyze_hierarchical_structure`; the fields `content_elements`, `has_tables`
(constantly `False` in the source) and `has_code` are not referenced by any
of the properties verified here and are omitted from the embedding. -/

structure SlideContent where
  slide_number : Nat
  title : Str
  content : List Str
  bullet_points : List Str
  images : List Str
  notes : Str
  level : Nat
deriving DecidableEq

structure SlideStructure where
  slide_number : Nat
  title : Str
  content_type : Str
  hierarchical_level : Nat
  parent_titles : List Str
  has_images : Bool
  is_title_page : Bool
  is_toc : Bool
  is_empty : Bool
  is_end_section : Bool
deriving DecidableEq

/-! ## The two character-count functions (C10)

`_count_slide_text_chars` (parser.py lines 605-625) and `_count_text_chars`
(lines 1039-1059): concatenate title, content blocks and bullet blocks, then
count the characters matched by `[一-龥]`, `[a-zA-Z]` and `\d`. -/

/-- Source function `_count_slide_text_chars` (used to gate the chapter/section-title rules). -/
def count_slide_text_chars (slide : SlideContent) : Nat :=
  let total_text := slide.title ++ slide.content.flatten ++ slide.bullet_points.flatten
  (total_text.filter isCjkCount).length + (total_text.filter isLetterC).length +
    (total_text.filter isDigitC).length

/-- Source function `_count_text_chars` (used by the image-page and end-page fallbacks). -/
def count_text_chars (slide : SlideContent) : Nat :=
  let total_text := slide.title ++ slide.content.flatten ++ slide.bullet_points.flatten
  (total_text.filter isCjkCount).length + (total_text.filter isLetterC).length +
    (total_text.filter isDigitC).length

/-- C10: the two text-weight counting functions of the source compute equal
values on every slide record; they are interchangeable definitions of the
slide's text weight. -/
theorem count_chars_eq : ∀ slide : SlideContent,
    count_slide_text_chars slide = count_text_chars slide :=
  fun _ => rfl

/-! ## Content-type strings

The content types are the free-form strings of the source. -/

def mainTitleStr : Str := ("主标题").data
def tocTypeStr : Str := ("目录").data
def outlineWordStr : Str := ("大纲").data
def chapterTitleStr : Str := ("章节标题").data
def sectionTitleStr : Str := ("小节标题").data
def bodyStr : Str := ("正文").data
def imagePageStr : Str := ("图片页").data
def emptyPageStr : Str := ("空白页").data
def endPageStr : Str := ("结尾页").data
def thanksTypeStr : Str := ("致谢").data
def refsTypeStr : Str := ("参考文献").data
def qaTypeStr : Str := ("问答").data
def endSectionStr : Str := ("结尾部分").data

/-- The f-string `幻灯片 {n+1}` used as a fallback title. -/
def slideDefaultTitle (n : Nat) : Str := ("幻灯片 ").data ++ (toString (n + 1)).data

/-- The constant f-string `幻灯片 1` of `_classify_first_slide`. -/
def slideOneStr : Str := ("幻灯片 1").data

/-! ## Keyword tables (`PPTParser.__init__`)

Only the tables actually read by the hierarchical analysis are embedded; the
`chapter_patterns` / `section_patterns` regex lists of `__init__` are dead
code (the simple detectors below carry their own inline pattern lists). -/

def toc_keywords : List Str :=
  [("目录").data, ("大纲").data, ("议程").data, ("日程").data, ("内容提要").data,
   ("内容概览").data, ("主要议题").data, ("课程大纲").data, ("教学大纲").data,
   ("报告大纲").data, ("纲要").data,
   ("table of contents").data, ("contents").data, ("agenda").data, ("schedule").data,
   ("outline").data, ("index").data, ("syllabus").data, ("curriculum").data, ("program").data]

def chapter_keywords : List Str :=
  [("章").data, ("章节").data, ("节").data, ("部分").data, ("篇").data, ("单元").data,
   ("模块").data, ("课").data, ("讲").data, ("讲次").data,
   ("chapter").data, ("part").data, ("section").data, ("unit").data, ("module").data,
   ("lesson").data, ("lecture").data]

def section_keywords : List Str :=
  [("小节").data, ("小标题").data, ("标题").data, ("要点").data, ("主题").data,
   ("话题").data, ("子项").data, ("子标题").data,
   ("subsection").data, ("subheading").data, ("point").data, ("topic").data,
   ("subpoint").data, ("subtitle").data]

def end_keywords : List Str :=
  [("结束").data, ("完").data, ("the end").data, ("谢谢").data, ("thank you").data,
   ("q&a").data, ("问答").data, ("讨论").data, ("问题").data, ("谢谢观看").data,
   ("感谢聆听").data, ("感谢倾听").data, ("欢迎提问").data, ("any questions").data,
   ("thanks").data, ("感谢").data, ("结语").data, ("总结").data, ("回顾").data,
   ("future work").data, ("conclusion").data, ("ending").data, ("finish").data,
   ("done").data, ("references").data, ("参考文献").data, ("致谢").data,
   ("acknowledgement").data, ("再见").data, ("goodbye").data, ("the end").data,
   ("questions?").data, ("q & a").data, ("讨论与问答").data]

def summary_keywords : List Str :=
  [("总结").data, ("小结").data, ("要点回顾").data, ("主要内容").data, ("摘要").data,
   ("概括").data, ("summary").data, ("conclusion").data, ("key points").data,
   ("takeaways").data, ("recap").data, ("概述").data, ("概要").data, ("核心内容").data,
   ("重点").data, ("要旨").data]

/-- The title-page indicator list of `_is_title_page`. -/
def title_page_indicators : List Str :=
  [("报告").data, ("演讲").data, ("汇报").data, ("介绍").data, ("presentation").data,
   ("report").data, ("培训").data, ("讲座").data, ("课程").data, ("workshop").data,
   ("seminar").data, ("分享").data]

/-! ## Regex matchers

Each anchored `re.match` pattern of the source is embedded as a
continuation-passing matcher over single-character classes.  `starThen p k`
matches `p* k` with full backtracking: at each position it first tries the
continuation and otherwise consumes one more `p`-character, exactly the
language of the regex (the patterns below only star single-character
classes, so this is complete). -/

def wsB (c : Char) : Bool := decide (pyWs c)

def starThen (p : Char → Bool) (k : Str → Bool) : Str → Bool
  | [] => k []
  | c :: rest => k (c :: rest) || (p c && starThen p k rest)

/-- Matches `p+ k` (one or more characters of class `p`, then `k`). -/
def plusThen (p : Char → Bool) (k : Str → Bool) : Str → Bool
  | [] => false
  | c :: rest => p c && starThen p k rest

/-- Matches a single character of class `p`, then `k`. -/
def clsThen (p : Char → Bool) (k : Str → Bool) : Str → Bool
  | [] => false
  | c :: rest => p c && k rest

/-- Matches `p? k` (regex optional single-character class). -/
def optClsThen (p : Char → Bool) (k : Str → Bool) (s : Str) : Bool :=
  clsThen p k s || k s

/-- Matches one literal character, then `k`. -/
def litTh (c : Char) (k : Str → Bool) : Str → Bool
  | [] => false
  | x :: rest => x == c && k rest

/-- Matches a literal string, then `k`. -/
def litSeq (w : Str) (k : Str → Bool) (s : Str) : Bool :=
  w.isPrefixOf s && k (s.drop w.length)

/-- Regex `$` (end of string; see the header for the trailing-newline caveat). -/
def strEnd (s : Str) : Bool := s.isEmpty

/-- Regex `.*$`: the remainder contains no newline. -/
def dotStarEnd (s : Str) : Bool := s.all (fun c => !(c == '\n'))

/-- Regex `.+$`: nonempty remainder containing no newline. -/
def dotPlusEnd (s : Str) : Bool := !s.isEmpty && s.all (fun c => !(c == '\n'))

/-- The Chinese numerals class `[一二三四五六七八九十]`. -/
def cnNumerals : List Char := ['一', '二', '三', '四', '五', '六', '七', '八', '九', '十']

def isCnNum (c : Char) : Bool := cnNumerals.contains c

def isCnNumOrDigit (c : Char) : Bool := isCnNum c || isDigitC c

/-- The separator class `[、\.]`. -/
def isSepC (c : Char) : Bool := c == '、' || c == '.'

/-- The circled numerals class `[①②③④⑤⑥⑦⑧⑨⑩]`. -/
def circledNums : List Char := ['①', '②', '③', '④', '⑤', '⑥', '⑦', '⑧', '⑨', '⑩']

def isCircledC (c : Char) : Bool := circledNums.contains c

/-- Digit class `[1-9]`. -/
def isD19 (c : Char) : Bool := 49 ≤ c.toNat && c.toNat ≤ 57

/-- Python `str.isdigit()` (ASCII restriction, see the header). -/
def pyIsdigit (s : Str) : Bool := !s.isEmpty && s.all isDigitC

/-- Regex `^幻灯片\s*\d+$`, the generic-title exclusion. -/
def genericTitlePat (s : Str) : Bool :=
  litSeq (("幻灯片").data) (starThen wsB (plusThen isDigitC strEnd)) s

/-- Regex `^Slide\s*\d+$` with `re.IGNORECASE`, applied here to the
lowercased title. -/
def genericSlidePat (s : Str) : Bool :=
  litSeq (("slide").data) (starThen wsB (plusThen isDigitC strEnd)) (lowerStr s)

/-! Patterns of `_is_chapter_title_simple` (parser.py lines 671-730),
in source order. -/

/-- Regex `^\d+[、\.]\s*.+$`. -/
def chPat1 : Str → Bool := plusThen isDigitC (clsThen isSepC (starThen wsB dotPlusEnd))

/-- Regex `^[一二三四五六七八九十]+[、\.]\s*.+$`. -/
def chPat2 : Str → Bool := plusThen isCnNum (clsThen isSepC (starThen wsB dotPlusEnd))

/-- Regex `^第[一二三四五六七八九十\d]+[章节].*$`. -/
def chPat3 : Str → Bool :=
  litTh '第' (plusThen isCnNumOrDigit (clsThen (fun c => c == '章' || c == '节') dotStarEnd))

/-- Regex `^[A-Z][、\.]\s*.+$`. -/
def chPat4 : Str → Bool := clsThen isUpperC (clsThen isSepC (starThen wsB dotPlusEnd))

/-- Regex `^\(\d+\)\s*.+$`. -/
def chPat5 : Str → Bool := litTh '(' (plusThen isDigitC (litTh ')' (starThen wsB dotPlusEnd)))

/-- Regex `^第[一二三四五六七八九十\d]+部分.*$`. -/
def chPat6 : Str → Bool := litTh '第' (plusThen isCnNumOrDigit (litTh '部' (litTh '分' dotStarEnd)))

/-- Regex `^第[一二三四五六七八九十\d]+单元.*$`. -/
def chPat7 : Str → Bool := litTh '第' (plusThen isCnNumOrDigit (litTh '单' (litTh '元' dotStarEnd)))

/-- Regex `^第[一二三四五六七八九十\d]+讲.*$`. -/
def chPat8 : Str → Bool := litTh '第' (plusThen isCnNumOrDigit (litTh '讲' dotStarEnd))

/-- Regex `^第[一二三四五六七八九十\d]+课.*$`. -/
def chPat9 : Str → Bool := litTh '第' (plusThen isCnNumOrDigit (litTh '课' dotStarEnd))

/-- Regex `^Chapter\s+\d+.*$`. -/
def chPat10 : Str → Bool := litSeq (("Chapter").data) (plusThen wsB (plusThen isDigitC dotStarEnd))

/-- Regex `^Part\s+\d+.*$`. -/
def chPat11 : Str → Bool := litSeq (("Part").data) (plusThen wsB (plusThen isDigitC dotStarEnd))

/-- Regex `^\d+\s+.*$`. -/
def chPat12 : Str → Bool := plusThen isDigitC (plusThen wsB dotStarEnd)

/-- Regex `^\d+$`. -/
def chPat13 : Str → Bool := plusThen isDigitC strEnd

/-- Regex `^0\d+\s*.+$` (check 2 of the source). -/
def chPatZero : Str → Bool := litTh '0' (plusThen isDigitC (starThen wsB dotPlusEnd))

/-- Regex `^[1-9]\s+[^\d].+$` (check 3). -/
def chPatD19a : Str → Bool :=
  clsThen isD19 (plusThen wsB (clsThen (fun c => !(isDigitC c)) dotPlusEnd))

/-- Regex `^[1-9]\s+.+$` (check 4). -/
def chPatD19b : Str → Bool := clsThen isD19 (plusThen wsB dotPlusEnd)

/-- Source function `_is_chapter_title_simple`. -/
def is_chapter_title_simple (title : Str) : Bool :=
  if title = [] ∨ (pyStrip title).length = 0 then false
  else
    let tc := pyStrip title
    if genericTitlePat tc then false
    else if genericSlidePat tc then false
    else if chPat1 tc || chPat2 tc || chPat3 tc || chPat4 tc || chPat5 tc || chPat6 tc ||
        chPat7 tc || chPat8 tc || chPat9 tc || chPat10 tc || chPat11 tc || chPat12 tc ||
        chPat13 tc then true
    else if chPatZero tc then true
    else if chPatD19a tc then true
    else if chPatD19b tc then true
    else if tc.length < 30 ∧
        chapter_keywords.any (fun kw => pyIn (lowerStr kw) (lowerStr tc)) then true
    else if pyIsdigit tc then true
    else false

/-! Patterns of `_is_section_title_simple` (parser.py lines 732-772),
in source order (the eighth entry repeats the first). -/

/-- Regex `^\d+\.\d+[、\.]?.+$`. -/
def sePat1 : Str → Bool :=
  plusThen isDigitC (litTh '.' (plusThen isDigitC (optClsThen isSepC dotPlusEnd)))

/-- Regex `^[a-z][、\.]\s*.+$`. -/
def sePat2 : Str → Bool := clsThen isLowerC (clsThen isSepC (starThen wsB dotPlusEnd))

/-- Regex `^\([a-z]\)\s*.+$`. -/
def sePat3 : Str → Bool := litTh '(' (clsThen isLowerC (litTh ')' (starThen wsB dotPlusEnd)))

/-- Regex `^[①②③④⑤⑥⑦⑧⑨⑩]\s*.+$`. -/
def sePat4 : Str → Bool := clsThen isCircledC (starThen wsB dotPlusEnd)

/-- Regex `^\d+\.\d+\.\d+[、\.]?.+$`. -/
def sePat5 : Str → Bool :=
  plusThen isDigitC (litTh '.'
    (plusThen isDigitC (litTh '.' (plusThen isDigitC (optClsThen isSepC dotPlusEnd)))))

/-- Regex `^[一二三四五六七八九十]\.\d+[、\.]?.+$`. -/
def sePat6 : Str → Bool :=
  clsThen isCnNum (litTh '.' (plusThen isDigitC (optClsThen isSepC dotPlusEnd)))

/-- Regex `^\(\d+\)\s*.+$`. -/
def sePat7 : Str → Bool := litTh '(' (plusThen isDigitC (litTh ')' (starThen wsB dotPlusEnd)))

/-- Regex `^\d+\s+.*$`. -/
def sePat9 : Str → Bool := plusThen isDigitC (plusThen wsB dotStarEnd)

/-- Regex `^\d+$`. -/
def sePat10 : Str → Bool := plusThen isDigitC strEnd

/-- Source function `_is_section_title_simple`. -/
def is_section_title_simple (title : Str) : Bool :=
  if title = [] ∨ (pyStrip title).length < 1 then false
  else
    let tc := pyStrip title
    if genericTitlePat tc then false
    else if sePat1 tc || sePat2 tc || sePat3 tc || sePat4 tc || sePat5 tc || sePat6 tc ||
        sePat7 tc || sePat1 tc || sePat9 tc || sePat10 tc then true
    else if tc.length < 25 ∧
        section_keywords.any (fun kw => pyIn (lowerStr kw) (lowerStr tc)) then true
    else if pyIsdigit tc then true
    else false

/-! ## Slide-level predicates -/

/-- Source function `_is_empty_slide`: no usable title, no content, no bullets, no images. -/
def is_empty_slide (slide : SlideContent) : Bool :=
  let has_title := !slide.title.isEmpty && !(pyStrip slide.title).isEmpty
  let has_content := !slide.content.isEmpty || !slide.bullet_points.isEmpty
  let has_images := !slide.images.isEmpty
  !(has_title || has_content || has_images)

/-- Source function `_is_title_page`: short title with an indicator keyword, a colon/dash
separator, or little overall text on slide number 0. -/
def is_title_page (slide : SlideContent) : Bool :=
  let title := slide.title
  if 50 < title.length then false
  else if title_page_indicators.any (fun ind => pyIn ind (lowerStr title)) then true
  else if pyIn ([':']) title || pyIn (['：']) title || pyIn (['—', '—']) title then true
  else if title.length + (slide.content.map List.length).sum +
      (slide.bullet_points.map List.length).sum < 100 ∧ slide.slide_number = 0 then true
  else false

/-- Source function `_is_image_page`: at least one image and text weight below 10. -/
def is_image_page (slide : SlideContent) : Bool :=
  !slide.images.isEmpty && count_text_chars slide < 10

/-- The table-of-contents keyword test shared verbatim by
`_is_toc_slide_improved_simple` and the first half of
`_is_toc_slide_improved`: a TOC keyword in the lowercased title, else in the
lowercased space-joined content and bullet text. -/
def toc_has_keyword (slide : SlideContent) : Bool :=
  let title_lower := lowerStr slide.title
  if toc_keywords.any (fun kw => pyIn (lowerStr kw) title_lower) then true
  else
    let text_lower := lowerStr (joinSp (slide.content ++ slide.bullet_points))
    toc_keywords.any (fun kw => pyIn (lowerStr kw) text_lower)

/-- Source function `_is_toc_slide_improved_simple` (its index arguments are unused). -/
def is_toc_slide_improved_simple (slide : SlideContent) : Bool :=
  toc_has_keyword slide

/-- Source function `_detect_end_page_simple`: only the last slide can be an ending page;
an ending keyword in text or title picks the sub-type by further keyword
subsets, which inspect only the content/bullet text. -/
def detect_end_page_simple (slide : SlideContent) (slide_num total_slides : Nat) :
    Bool × Str :=
  if slide_num ≠ total_slides - 1 then (false, [])
  else
    let title := slide.title
    let text_lower := lowerStr (joinSp (slide.content ++ slide.bullet_points))
    if end_keywords.any (fun kw => pyIn kw text_lower || pyIn kw (lowerStr title)) then
      if [("谢谢").data, ("感谢").data, ("thank").data].any (fun kw => pyIn kw text_lower) then
        (true, thanksTypeStr)
      else if [("reference").data, ("参考文献").data].any (fun kw => pyIn kw text_lower) then
        (true, refsTypeStr)
      else if [("q&a").data, ("问答").data].any (fun kw => pyIn kw text_lower) then
        (true, qaTypeStr)
      else (true, endPageStr)
    else (false, [])

/-- Source function `_detect_end_page`: as `_detect_end_page_simple`, plus the
summary-keyword fallback and the low-text-weight fallbacks. -/
def detect_end_page (slide : SlideContent) (slide_num total_slides : Nat) :
    Bool × Str :=
  if slide_num ≠ total_slides - 1 then (false, [])
  else
    let title := slide.title
    let text_lower := lowerStr (joinSp (slide.content ++ slide.bullet_points))
    if end_keywords.any (fun kw => pyIn kw text_lower || pyIn kw (lowerStr title)) then
      if [("谢谢").data, ("感谢").data, ("thank").data].any (fun kw => pyIn kw text_lower) then
        (true, thanksTypeStr)
      else if [("reference").data, ("参考文献").data].any (fun kw => pyIn kw text_lower) then
        (true, refsTypeStr)
      else if [("q&a").data, ("问答").data].any (fun kw => pyIn kw text_lower) then
        (true, qaTypeStr)
      else (true, endPageStr)
    else if summary_keywords.any (fun kw => pyIn kw text_lower || pyIn kw (lowerStr title)) then
      (true, endPageStr)
    else if !slide.images.isEmpty ∧ count_text_chars slide < 10 then (true, endPageStr)
    else if count_text_chars slide < 10 then (true, endPageStr)
    else (false, [])

/-! ## The strict classifier and level/path rules -/

/-- Source function `_classify_slide_content_strict`: the fixed-order classification chain
(empty, main title at index 0 only, TOC, ending types at the last index
only, chapter title under the 50-weight gate, image page, section title
under the same gate, body, empty). -/
def classify_slide_content_strict (slide : SlideContent) (slide_num total_slides : Nat) : Str :=
  if is_empty_slide slide then emptyPageStr
  else if slide_num = 0 ∧ is_title_page slide then mainTitleStr
  else if is_toc_slide_improved_simple slide then tocTypeStr
  else if (detect_end_page_simple slide slide_num total_slides).1 then
    (let end_type := (detect_end_page_simple slide slide_num total_slides).2
     if end_type = thanksTypeStr ∨ end_type = refsTypeStr ∨ end_type = qaTypeStr then end_type
     else endPageStr)
  else if !slide.title.isEmpty ∧ count_slide_text_chars slide ≤ 50 ∧
      is_chapter_title_simple slide.title then chapterTitleStr
  else if is_image_page slide then imagePageStr
  else
    let has_title := !slide.title.isEmpty && !(pyStrip slide.title).isEmpty
    let has_content := !slide.content.isEmpty || !slide.bullet_points.isEmpty
    if has_title || has_content then
      if !slide.title.isEmpty ∧ count_slide_text_chars slide ≤ 50 ∧
          is_section_title_simple slide.title then sectionTitleStr
      else bodyStr
    else emptyPageStr

/-- Source function `_determine_hierarchical_level` (its slide and index arguments are
unused by the source body). -/
def determine_hierarchical_level (content_type : Str) (current_hierarchy : List Str) : Nat :=
  if content_type = mainTitleStr ∨ content_type = tocTypeStr then 1
  else if content_type = endPageStr ∨ content_type = thanksTypeStr ∨
      content_type = refsTypeStr ∨ content_type = qaTypeStr then 1
  else if content_type = chapterTitleStr then 2
  else if content_type = sectionTitleStr then 3
  else if content_type = imagePageStr then current_hierarchy.length + 1
  else current_hierarchy.length + 1

/-- Source function `_update_hierarchy_path`.  In the source the truncation branch rebinds
the local name (`current_hierarchy = current_hierarchy[:level-1]`), so in
that branch the caller's list is not mutated and the subsequent append goes
to the discarded local copy; only the branch without truncation appends to
the caller's list.  This function returns the caller-visible path. -/
def update_hierarchy_path (content_type : Str) (level : Nat) (title : Str)
    (path : List Str) : List Str :=
  if content_type = chapterTitleStr ∨ content_type = imagePageStr then
    if level ≤ path.length then path
    else if !title.isEmpty ∧ title ∉ path then path ++ [title] else path
  else path

/-! ## HierarchyAnalyzer -/

/-- Source function `_classify_first_slide`.  A first slide that is not a title page is fed
to `_classify_slide_content_strict` with `total_slides = 1`, so the slide is
classified as if it were the only (hence also the last) slide of the deck. -/
def classify_first_slide (slide : SlideContent) : SlideStructure :=
  if is_title_page slide then
    let t0 := if !slide.title.isEmpty then slide.title else mainTitleStr
    let t :=
      if t0 = [] ∨ t0 = slideOneStr then
        (if !slide.content.isEmpty then (slide.content.headD []).take 50
         else if !slide.bullet_points.isEmpty then (slide.bullet_points.headD []).take 50
         else t0)
      else t0
    { slide_number := 0, title := t, content_type := mainTitleStr, hierarchical_level := 1,
      parent_titles := [], has_images := !slide.images.isEmpty, is_title_page := true,
      is_toc := false, is_empty := is_empty_slide slide, is_end_section := false }
  else
    { slide_number := 0,
      title := if !slide.title.isEmpty then slide.title else slideOneStr,
      content_type := classify_slide_content_strict slide 0 1,
      hierarchical_level := 1, parent_titles := [],
      has_images := !slide.images.isEmpty, is_title_page := false, is_toc := false,
      is_empty := is_empty_slide slide, is_end_section := false }

/-- Source function `_create_toc_structure`: the TOC record.  Its level is the length of the
current hierarchy path plus one, and `parent_titles` is a copy of the path
as it stands when the record is created. -/
def create_toc_structure (slide : SlideContent) (current_hierarchy : List Str) :
    SlideStructure :=
  let t0 := if !slide.title.isEmpty then slide.title else tocTypeStr
  let t :=
    if t0 = slideDefaultTitle slide.slide_number then
      (if !slide.content.isEmpty then
         (if (slide.content.headD []).length < 30 then slide.content.headD [] else t0)
       else if !slide.bullet_points.isEmpty then
         (if (slide.bullet_points.headD []).length < 30 then slide.bullet_points.headD [] else t0)
       else t0)
    else t0
  { slide_number := slide.slide_number, title := t, content_type := tocTypeStr,
    hierarchical_level := current_hierarchy.length + 1,
    parent_titles := current_hierarchy,
    has_images := !slide.images.isEmpty, is_title_page := false, is_toc := true,
    is_empty := is_empty_slide slide, is_end_section := false }

/-- Source function `_create_end_structure`: the ending record, pinned to level 1 with the
fixed parent path `["结尾部分"]`. -/
def create_end_structure (slide : SlideContent) (end_type : Str) : SlideStructure :=
  { slide_number := slide.slide_number,
    title := if !slide.title.isEmpty then slide.title else end_type,
    content_type := end_type, hierarchical_level := 1,
    parent_titles := [endSectionStr],
    has_images := !slide.images.isEmpty, is_title_page := false, is_toc := false,
    is_empty := is_empty_slide slide, is_end_section := true }

/-- The mutable state carried across the slide loop: the running hierarchy
path and the TOC-run tracker (`self.toc_found` / `self.toc_slides`, reset by
`parse_pptx` before each analysis run). -/
structure AnalyzerState where
  path : List Str
  tocFound : Bool
  tocSlides : List Nat
deriving DecidableEq

/-- Source function `_is_toc_slide_improved`: TOC detection with run tracking.  The keyword
test is the same as the simple variant; a keyword match starts a run when
none is active, extends an active run only when this slide immediately
follows the previous TOC slide, and otherwise reports `false`.  The hierarchy
path is never touched here.  The `none` branch of `getLast?` is unreachable
from the reset state (the flag is only ever set together with a nonempty
`toc_slides`); in Python `toc_slides[-1]` would fault there. -/
def is_toc_slide_improved (slide : SlideContent) (slide_num : Nat) (st : AnalyzerState) :
    Bool × AnalyzerState :=
  if toc_has_keyword slide then
    if st.tocFound = false then (true, ⟨st.path, true, [slide_num]⟩)
    else
      match st.tocSlides.getLast? with
      | some lastIdx =>
        if slide_num = lastIdx + 1 then
          (true, ⟨st.path, st.tocFound, st.tocSlides ++ [slide_num]⟩)
        else (false, st)
      | none => (false, st)
  else (false, st)

/-- One iteration of the slide loop of `_analyze_hierarchical_structure`
(slides 1..n-1): TOC branch, ending branch, otherwise strict classification
with level/path bookkeeping.  The classifier calls are pure functions, so
repeating a call here is equivalent to the source's single call. -/
def analyzeStep (total_slides slide_num : Nat) (slide : SlideContent)
    (st : AnalyzerState) : SlideStructure × AnalyzerState :=
  if (is_toc_slide_improved slide slide_num st).1 then
    let st1 := (is_toc_slide_improved slide slide_num st).2
    let structToc := create_toc_structure slide st1.path
    let newPath :=
      if tocTypeStr ∉ st1.path ∧ outlineWordStr ∉ st1.path then
        st1.path ++ [if slide.title ≠ outlineWordStr then tocTypeStr else outlineWordStr]
      else st1.path
    (structToc, ⟨newPath, st1.tocFound, st1.tocSlides⟩)
  else if (detect_end_page slide slide_num total_slides).1 then
    let st1 := (is_toc_slide_improved slide slide_num st).2
    (create_end_structure slide (detect_end_page slide slide_num total_slides).2,
      ⟨[endSectionStr], st1.tocFound, st1.tocSlides⟩)
  else
    let st1 := (is_toc_slide_improved slide slide_num st).2
    let ct := classify_slide_content_strict slide slide_num total_slides
    let lvl := determine_hierarchical_level ct st1.path
    let t := if !slide.title.isEmpty then slide.title else slideDefaultTitle slide.slide_number
    let structBody : SlideStructure :=
      { slide_number := slide.slide_number, title := t, content_type := ct,
        hierarchical_level := lvl, parent_titles := st1.path,
        has_images := !slide.images.isEmpty, is_title_page := false, is_toc := false,
        is_empty := is_empty_slide slide, is_end_section := false }
    (structBody, ⟨update_hierarchy_path ct lvl t st1.path, st1.tocFound, st1.tocSlides⟩)

/-- The slide loop, threading the analyzer state from slide to slide. -/
def analyzeLoop (total_slides : Nat) :
    Nat → List SlideContent → AnalyzerState → List SlideStructure
  | _, [], _ => []
  | i, slide :: rest, st =>
    (analyzeStep total_slides i slide st).1 ::
      analyzeLoop total_slides (i + 1) rest (analyzeStep total_slides i slide st).2

/-- Source function `_analyze_hierarchical_structure`, as invoked from `parse_pptx` (which
resets the TOC-run state before each run): the first slide is classified by
`_classify_first_slide`, the initial hierarchy path is the first record's
title (the source's conditional produces the same singleton in both
branches), and the remaining slides run through the loop. -/
def analyze_hierarchical_structure (slides : List SlideContent) : List SlideStructure :=
  match slides with
  | [] => []
  | first :: rest =>
    let first_structure := classify_first_slide first
    let current_hierarchy :=
      if first_structure.title ≠ mainTitleStr then [first_structure.title]
      else [mainTitleStr]
    first_structure :: analyzeLoop (rest.length + 1) 1 rest ⟨current_hierarchy, false, []⟩

/-! ## Observers used by the claim statements -/

/-- Lifts a predicate over an optional value (`True` on `none`). -/
def oholds (P : α → Prop) : Option α → Prop
  | none => True
  | some a => P a

instance instDecidableOholds (P : α → Prop) [DecidablePred P] :
    (o : Option α) → Decidable (oholds P o)
  | none => Decidable.isTrue trivial
  | some a => inferInstanceAs (Decidable (P a))

/-- The content type of the record at position `i` of the analysis output. -/
def contentTypeAt (slides : List SlideContent) (i : Nat) : Option Str :=
  ((analyze_hierarchical_structure slides).get? i).map SlideStructure.content_type

/-- The level of the record at position `i` of the analysis output. -/
def levelAt (slides : List SlideContent) (i : Nat) : Option Nat :=
  ((analyze_hierarchical_structure slides).get? i).map SlideStructure.hierarchical_level

/-- The parent path of the record at position `i` of the analysis output. -/
def parentAt (slides : List SlideContent) (i : Nat) : Option (List Str) :=
  ((analyze_hierarchical_structure slides).get? i).map SlideStructure.parent_titles

/-- The four ending content types. -/
def isEndingType (s : Str) : Bool :=
  decide (s = endPageStr ∨ s = thanksTypeStr ∨ s = refsTypeStr ∨ s = qaTypeStr)

/-! ## Plumbing lemmas about the analyzer loop -/

theorem analyzeLoop_length (total : Nat) :
    ∀ (rest : List SlideContent) (i : Nat) (st : AnalyzerState),
      (analyzeLoop total i rest st).length = rest.length := by
  intro rest
  induction rest with
  | nil => intros; rfl
  | cons sl rest ih =>
    intro i st
    simp only [analyzeLoop, List.length_cons, ih]

theorem analyzeLoop_get? (total : Nat) :
    ∀ (rest : List SlideContent) (k i : Nat) (st : AnalyzerState) (r : SlideStructure),
      (analyzeLoop total i rest st).get? k = some r →
      ∃ sl st', rest.get? k = some sl ∧ r = (analyzeStep total (i + k) sl st').1 := by
  intro rest
  induction rest with
  | nil => intro k i st r h; simp [analyzeLoop] at h
  | cons sl rest ih =>
    intro k i st r h
    cases k with
    | zero =>
      simp only [analyzeLoop, List.get?_cons_zero, Option.some.injEq] at h
      exact ⟨sl, st, rfl, by rw [Nat.add_zero]; exact h.symm⟩
    | succ k =>
      simp only [analyzeLoop, List.get?_cons_succ] at h
      obtain ⟨sl', st', hget, hr⟩ := ih k (i + 1) _ r h
      refine ⟨sl', st', by simpa using hget, ?_⟩
      have harith : i + (k + 1) = (i + 1) + k := by omega
      rw [harith]
      exact hr

theorem analyze_get?_succ_ex (first : SlideContent) (rest : List SlideContent) (k : Nat)
    (r : SlideStructure)
    (h : (analyze_hierarchical_structure (first :: rest)).get? (k + 1) = some r) :
    ∃ sl st', rest.get? k = some sl ∧ r = (analyzeStep (rest.length + 1) (1 + k) sl st').1 :=
  analyzeLoop_get? (rest.length + 1) rest k 1 _ r h

/-! ## Branch-evaluation lemmas -/

theorem detect_end_page_not_last (slide : SlideContent) {i total : Nat}
    (h : i ≠ total - 1) : detect_end_page slide i total = (false, []) := by
  unfold detect_end_page
  rw [if_pos h]

theorem detect_end_page_simple_not_last (slide : SlideContent) {i total : Nat}
    (h : i ≠ total - 1) : detect_end_page_simple slide i total = (false, []) := by
  unfold detect_end_page_simple
  rw [if_pos h]

theorem detect_end_page_snd (slide : SlideContent) (i total : Nat) :
    (detect_end_page slide i total).2 = thanksTypeStr ∨
    (detect_end_page slide i total).2 = refsTypeStr ∨
    (detect_end_page slide i total).2 = qaTypeStr ∨
    (detect_end_page slide i total).2 = endPageStr ∨
    (detect_end_page slide i total).2 = [] := by
  simp only [detect_end_page]
  split_ifs <;> simp

theorem strict_not_ending (slide : SlideContent) {i total : Nat} (h : i ≠ total - 1) :
    isEndingType (classify_slide_content_strict slide i total) = false := by
  simp only [classify_slide_content_strict, detect_end_page_simple_not_last slide h]
  split_ifs <;> first | rfl | exact False.elim (by assumption)

theorem classify_first_level (slide : SlideContent) :
    (classify_first_slide slide).hierarchical_level = 1 ∧
    (classify_first_slide slide).parent_titles = [] := by
  unfold classify_first_slide
  split_ifs <;> exact ⟨rfl, rfl⟩

theorem det_level_main (path : List Str) :
    determine_hierarchical_level mainTitleStr path = 1 := rfl

theorem det_level_toc (path : List Str) :
    determine_hierarchical_level tocTypeStr path = 1 := rfl

theorem det_level_endPage (path : List Str) :
    determine_hierarchical_level endPageStr path = 1 := rfl

theorem det_level_thanks (path : List Str) :
    determine_hierarchical_level thanksTypeStr path = 1 := rfl

theorem det_level_refs (path : List Str) :
    determine_hierarchical_level refsTypeStr path = 1 := rfl

theorem det_level_qa (path : List Str) :
    determine_hierarchical_level qaTypeStr path = 1 := rfl

theorem det_level_body (path : List Str) :
    determine_hierarchical_level bodyStr path = path.length + 1 := rfl

theorem det_level_image (path : List Str) :
    determine_hierarchical_level imagePageStr path = path.length + 1 := rfl

/-- The record produced by the toc branch of one loop step. -/
theorem analyzeStep_toc (total i : Nat) (slide : SlideContent) (st : AnalyzerState)
    (h : (is_toc_slide_improved slide i st).1 = true) :
    (analyzeStep total i slide st).1 =
      create_toc_structure slide ((is_toc_slide_improved slide i st).2).path := by
  unfold analyzeStep
  rw [if_pos h]

/-- The state produced by the toc branch of one loop step. -/
theorem analyzeStep_toc_state (total i : Nat) (slide : SlideContent) (st : AnalyzerState)
    (h : (is_toc_slide_improved slide i st).1 = true) :
    (analyzeStep total i slide st).2 =
      ⟨(if tocTypeStr ∉ ((is_toc_slide_improved slide i st).2).path ∧
            outlineWordStr ∉ ((is_toc_slide_improved slide i st).2).path then
          ((is_toc_slide_improved slide i st).2).path ++
            [if slide.title ≠ outlineWordStr then tocTypeStr else outlineWordStr]
        else ((is_toc_slide_improved slide i st).2).path),
        ((is_toc_slide_improved slide i st).2).tocFound,
        ((is_toc_slide_improved slide i st).2).tocSlides⟩ := by
  unfold analyzeStep
  rw [if_pos h]

/-- The record and state produced by the ending branch of one loop step. -/
theorem analyzeStep_end (total i : Nat) (slide : SlideContent) (st : AnalyzerState)
    (h1 : (is_toc_slide_improved slide i st).1 = false)
    (h2 : (detect_end_page slide i total).1 = true) :
    (analyzeStep total i slide st).1 =
        create_end_structure slide (detect_end_page slide i total).2 ∧
      ((analyzeStep total i slide st).2).path = [endSectionStr] := by
  unfold analyzeStep
  rw [if_neg (by simp [h1]), if_pos h2]
  exact ⟨rfl, rfl⟩

/-- The record produced by the strict-classification branch of one loop step. -/
theorem analyzeStep_strict (total i : Nat) (slide : SlideContent) (st : AnalyzerState)
    (h1 : (is_toc_slide_improved slide i st).1 = false)
    (h2 : (detect_end_page slide i total).1 = false) :
    (analyzeStep total i slide st).1 =
      { slide_number := slide.slide_number,
        title := if !slide.title.isEmpty then slide.title
                 else slideDefaultTitle slide.slide_number,
        content_type := classify_slide_content_strict slide i total,
        hierarchical_level :=
          determine_hierarchical_level (classify_slide_content_strict slide i total)
            ((is_toc_slide_improved slide i st).2).path,
        parent_titles := ((is_toc_slide_improved slide i st).2).path,
        has_images := !slide.images.isEmpty, is_title_page := false, is_toc := false,
        is_empty := is_empty_slide slide, is_end_section := false } := by
  unfold analyzeStep
  rw [if_neg (by simp [h1]), if_neg (by simp [h2])]

/-- A loop record produced at an index other than the last never carries an
ending content type (the toc branch yields `目录`, the ending branch is gated
on the index by `_detect_end_page`, and within the strict classifier the
ending branch is gated by `_detect_end_page_simple`). -/
theorem step_not_ending (total i : Nat) (slide : SlideContent) (st : AnalyzerState)
    (h : i ≠ total - 1) :
    isEndingType ((analyzeStep total i slide st).1).content_type = false := by
  cases h1 : (is_toc_slide_improved slide i st).1 with
  | true =>
    rw [analyzeStep_toc total i slide st h1]
    rfl
  | false =>
    have h2 : (detect_end_page slide i total).1 = false := by
      rw [detect_end_page_not_last slide h]
    rw [analyzeStep_strict total i slide st h1 h2]
    exact strict_not_ending slide h

/-- MainTitle and ending records from a loop step are pinned to level 1, and
a TOC record's level is the length of its recorded parent path plus one
(level 1 arises only via the strict classifier, for a TOC-like slide whose
run was broken). -/
theorem step_pinned_level (total i : Nat) (slide : SlideContent) (st : AnalyzerState) :
    (((analyzeStep total i slide st).1.content_type = mainTitleStr ∨
        isEndingType ((analyzeStep total i slide st).1).content_type = true) →
      (analyzeStep total i slide st).1.hierarchical_level = 1) ∧
    ((analyzeStep total i slide st).1.content_type = tocTypeStr →
      (analyzeStep total i slide st).1.hierarchical_level =
          (analyzeStep total i slide st).1.parent_titles.length + 1 ∨
        (analyzeStep total i slide st).1.hierarchical_level = 1) := by
  cases h1 : (is_toc_slide_improved slide i st).1 with
  | true =>
    rw [analyzeStep_toc total i slide st h1]
    constructor
    · intro hct
      rcases hct with hct | hct
      · exact absurd (show tocTypeStr = mainTitleStr from hct) (by decide)
      · exact absurd (show isEndingType tocTypeStr = true from hct) (by decide)
    · intro _
      exact Or.inl rfl
  | false =>
    cases h2 : (detect_end_page slide i total).1 with
    | true =>
      rw [(analyzeStep_end total i slide st h1 h2).1]
      refine ⟨fun _ => rfl, fun hct => ?_⟩
      exact Or.inr rfl
    | false =>
      rw [analyzeStep_strict total i slide st h1 h2]
      constructor
      · intro hct
        rcases hct with hct | hct
        · have hc : classify_slide_content_strict slide i total = mainTitleStr := hct
          show determine_hierarchical_level (classify_slide_content_strict slide i total) _ = 1
          rw [hc, det_level_main]
        · have hc := of_decide_eq_true (show decide (classify_slide_content_strict slide i total = endPageStr ∨ classify_slide_content_strict slide i total = thanksTypeStr ∨ classify_slide_content_strict slide i total = refsTypeStr ∨ classify_slide_content_strict slide i total = qaTypeStr) = true from hct)
          show determine_hierarchical_level (classify_slide_content_strict slide i total) _ = 1
          rcases hc with hc | hc | hc | hc
          · rw [hc, det_level_endPage]
          · rw [hc, det_level_thanks]
          · rw [hc, det_level_refs]
          · rw [hc, det_level_qa]
      · intro hct
        have hc : classify_slide_content_strict slide i total = tocTypeStr := hct
        right
        show determine_hierarchical_level (classify_slide_content_strict slide i total) _ = 1
        rw [hc, det_level_toc]

/-- A Body or ImagePage record from a loop step satisfies
`level = len(parentPath) + 1`. -/
theorem step_body_image_level (total i : Nat) (slide : SlideContent) (st : AnalyzerState) :
    ((analyzeStep total i slide st).1.content_type = bodyStr ∨
      (analyzeStep total i slide st).1.content_type = imagePageStr) →
    (analyzeStep total i slide st).1.hierarchical_level =
      (analyzeStep total i slide st).1.parent_titles.length + 1 := by
  cases h1 : (is_toc_slide_improved slide i st).1 with
  | true =>
    rw [analyzeStep_toc total i slide st h1]
    intro hct
    rcases hct with hct | hct
    · exact absurd (show tocTypeStr = bodyStr from hct) (by decide)
    · exact absurd (show tocTypeStr = imagePageStr from hct) (by decide)
  | false =>
    cases h2 : (detect_end_page slide i total).1 with
    | true =>
      rw [(analyzeStep_end total i slide st h1 h2).1]
      intro hct
      have hsnd := detect_end_page_snd slide i total
      rcases hct with hct | hct
      · have hc : (detect_end_page slide i total).2 = bodyStr := hct
        rcases hsnd with hs | hs | hs | hs | hs <;> rw [hs] at hc <;>
          exact absurd hc (by decide)
      · have hc : (detect_end_page slide i total).2 = imagePageStr := hct
        rcases hsnd with hs | hs | hs | hs | hs <;> rw [hs] at hc <;>
          exact absurd hc (by decide)
    | false =>
      rw [analyzeStep_strict total i slide st h1 h2]
      intro hct
      show determine_hierarchical_level (classify_slide_content_strict slide i total)
          ((is_toc_slide_improved slide i st).2).path =
        ((is_toc_slide_improved slide i st).2).path.length + 1
      rcases hct with hct | hct
      · have hc : classify_slide_content_strict slide i total = bodyStr := hct
        rw [hc, det_level_body]
      · have hc : classify_slide_content_strict slide i total = imagePageStr := hct
        rw [hc, det_level_image]

/-! ## C1: exhaustiveness -/

/-- C1: the hierarchical structure analysis returns exactly one record per
input slide (output length equals input length), and an empty input list
yields an empty output list with no synthetic slide invented. -/
theorem analyze_length :
    (∀ slides : List SlideContent,
        (analyze_hierarchical_structure slides).length = slides.length) ∧
      analyze_hierarchical_structure [] = [] := by
  constructor
  · intro slides
    cases slides with
    | nil => rfl
    | cons first rest =>
      show ((classify_first_slide first) ::
        analyzeLoop (rest.length + 1) 1 rest _).length = rest.length + 1
      rw [List.length_cons, analyzeLoop_length]
  · rfl

/-! ## C2 (amended): ending types away from the first and last indices -/

/-- C2 amended: a record at a position other than the first and the last
never carries an ending content type.  (At the first position an ending type
is possible: `_classify_first_slide` hands a non-title-page first slide to
the strict classifier with `total_slides = 1`, which treats it as a last
slide; see the counterexample.) -/
theorem ending_middle_free (slides : List SlideContent) (i : Nat)
    (h0 : 0 < i) (hlast : i + 1 < slides.length) :
    oholds (fun r => isEndingType r.content_type = false)
      ((analyze_hierarchical_structure slides).get? i) := by
  cases slides with
  | nil => simp at hlast
  | cons first rest =>
    obtain ⟨k, rfl⟩ : ∃ k, i = k + 1 := ⟨i - 1, by omega⟩
    cases hg : (analyze_hierarchical_structure (first :: rest)).get? (k + 1) with
    | none => exact trivial
    | some r =>
      obtain ⟨sl, st', _, hr⟩ := analyze_get?_succ_ex first rest k r hg
      show isEndingType r.content_type = false
      rw [hr]
      refine step_not_ending _ _ sl st' ?_
      have hlen : rest.length + 1 = (first :: rest).length := rfl
      omega

/-! ## C3 (amended): level pinning -/

/-- C3 amended: every record classified MainTitle or into an ending type has
level 1; a record classified TOC instead has level `len(parentPath) + 1`
(its level is pinned to 1 only when the TOC verdict comes from the strict
classifier, i.e. for the first slide or a TOC-like slide whose run was
broken).  The original claim that TOC records always sit at level 1 fails;
see the counterexample. -/
theorem pinned_levels (slides : List SlideContent) (i : Nat) :
    oholds (fun r =>
        ((r.content_type = mainTitleStr ∨ isEndingType r.content_type = true) →
          r.hierarchical_level = 1) ∧
        (r.content_type = tocTypeStr →
          r.hierarchical_level = r.parent_titles.length + 1 ∨ r.hierarchical_level = 1))
      ((analyze_hierarchical_structure slides).get? i) := by
  cases slides with
  | nil => exact trivial
  | cons first rest =>
    cases i with
    | zero =>
      show oholds _ (some (classify_first_slide first))
      exact ⟨fun _ => (classify_first_level first).1,
        fun _ => Or.inr (classify_first_level first).1⟩
    | succ k =>
      cases hg : (analyze_hierarchical_structure (first :: rest)).get? (k + 1) with
      | none => exact trivial
      | some r =>
        obtain ⟨sl, st', _, hr⟩ := analyze_get?_succ_ex first rest k r hg
        show ((r.content_type = mainTitleStr ∨ isEndingType r.content_type = true) →
            r.hierarchical_level = 1) ∧
          (r.content_type = tocTypeStr →
            r.hierarchical_level = r.parent_titles.length + 1 ∨ r.hierarchical_level = 1)
        rw [hr]
        exact step_pinned_level _ _ sl st'

/-! ## C4: Body/ImagePage level-path consistency -/

/-- C4: every record classified Body (正文) or ImagePage (图片页) satisfies
`level = len(parentPath) + 1` (on the first slide both fields are the
constants 1 and `[]`; in the loop the level of these types is defined as the
path length plus one, and the recorded path is that same path). -/
theorem body_image_level_consistent (slides : List SlideContent) (i : Nat) :
    oholds (fun r =>
        (r.content_type = bodyStr ∨ r.content_type = imagePageStr) →
          r.hierarchical_level = r.parent_titles.length + 1)
      ((analyze_hierarchical_structure slides).get? i) := by
  cases slides with
  | nil => exact trivial
  | cons first rest =>
    cases i with
    | zero =>
      show oholds _ (some (classify_first_slide first))
      intro _
      rw [(classify_first_level first).1, (classify_first_level first).2]
      rfl
    | succ k =>
      cases hg : (analyze_hierarchical_structure (first :: rest)).get? (k + 1) with
      | none => exact trivial
      | some r =>
        obtain ⟨sl, st', _, hr⟩ := analyze_get?_succ_ex first rest k r hg
        show (r.content_type = bodyStr ∨ r.content_type = imagePageStr) →
          r.hierarchical_level = r.parent_titles.length + 1
        rw [hr]
        exact step_body_image_level _ _ sl st'

/-! ## Concrete decks used for counterexamples and witnesses -/

/-- First slide of the C2 deck: title `谢谢` with 100 characters of body
text, so `_is_title_page` rejects it (no indicator keyword, no separator,
total text length 102 ≥ 100). -/
def c2s0 : SlideContent := ⟨0, ("谢谢").data, [List.replicate 100 'a'], [], [], [], 1⟩

def c2s1 : SlideContent := ⟨1, ("第二页内容").data, [], [], [], [], 1⟩

def c2deck : List SlideContent := [c2s0, c2s1]

def c3s0 : SlideContent := ⟨0, ("课程汇报：机器学习导论").data, [], [], [], [], 1⟩

def c3s1 : SlideContent :=
  ⟨1, ("目录").data, [], [("1. 引言").data, ("2. 方法").data], [], [], 1⟩

def c3deck : List SlideContent := [c3s0, c3s1]

/-- The C5 scenario slide: title `1.1 数据预处理` (weight 7) plus a
33-ideograph body line, for a slide text weight of exactly 40. -/
def c5s1 : SlideContent :=
  ⟨1, ("1.1 数据预处理").data,
    [("本节介绍数据清洗流程包括缺失值填补异常值剔除与格式统一等步骤共计若").data],
    [], [], [], 1⟩

def c5s2 : SlideContent := ⟨2, ("谢谢观看").data, [], [], [], [], 1⟩

def c5deck : List SlideContent := [c3s0, c5s1, c5s2]

def c6s0 : SlideContent := ⟨0, ("课程介绍：深度学习基础").data, [], [], [], [], 1⟩

def c6s1 : SlideContent := ⟨1, ("谢谢观看").data, [], [], [], [], 1⟩

def c6deck : List SlideContent := [c6s0, c6s1]

def c7title0 : Str := ("项目进展汇报：智能系统").data

def c7s0 : SlideContent := ⟨0, c7title0, [], [], [], [], 1⟩

def c7s1 : SlideContent := ⟨1, ("目录").data, [], [("1. 引言").data], [], [], 1⟩

/-- A body slide with text weight above 50, so neither title gate fires. -/
def c7s2 : SlideContent :=
  ⟨2, ("研究背景介绍").data,
    [("该系统的总体架构由三个组成单元分别负责信息采集模型训练与结果展示整体设计方案如下所述内容丰富详实可靠").data],
    [], [], [], 1⟩

def c7s3 : SlideContent := ⟨3, ("谢谢观看").data, [], [], [], [], 1⟩

def c7deck : List SlideContent := [c7s0, c7s1, c7s2, c7s3]

/-- An analyzer state used by the C7 witness. -/
def c7state0 : AnalyzerState := ⟨[c7title0], false, []⟩

/-- Witness instantiation of the amended C3 statement at a concrete deck. -/
theorem pinned_levels_witness :
    oholds (fun r =>
        ((r.content_type = mainTitleStr ∨ isEndingType r.content_type = true) →
          r.hierarchical_level = 1) ∧
        (r.content_type = tocTypeStr →
          r.hierarchical_level = r.parent_titles.length + 1 ∨ r.hierarchical_level = 1))
      ((analyze_hierarchical_structure c3deck).get? 1) :=
  pinned_levels c3deck 1

/-- Witness instantiation of C4 at a concrete deck with a Body record. -/
theorem body_image_level_witness :
    oholds (fun r =>
        (r.content_type = bodyStr ∨ r.content_type = imagePageStr) →
          r.hierarchical_level = r.parent_titles.length + 1)
      ((analyze_hierarchical_structure c7deck).get? 2) :=
  body_image_level_consistent c7deck 2

/-! ## C2: counterexample and witness -/

/-- C2 counterexample: in this two-slide deck the first slide (title `谢谢`,
102 characters of text, hence not a title page) is handed by
`_classify_first_slide` to the strict classifier with `total_slides = 1`, so
`_detect_end_page_simple` treats index 0 as the last index and the record at
index 0 carries the ending type `结尾页` although the deck's last index
is 1.  This falsifies the claim that ending types only ever appear at the
last index. -/
theorem ending_at_index_zero_counter :
    c2deck.length = 2 ∧ contentTypeAt c2deck 0 = some endPageStr ∧
      isEndingType endPageStr = true :=
  ⟨rfl, by decide, by decide⟩

/-- Witness for the amended C2 theorem at a concrete middle index. -/
theorem ending_middle_free_witness :
    0 < 1 ∧ 1 + 1 < c5deck.length ∧
      oholds (fun r => isEndingType r.content_type = false)
        ((analyze_hierarchical_structure c5deck).get? 1) :=
  ⟨by decide, by decide, ending_middle_free c5deck 1 (by decide) (by decide)⟩

/-! ## C3: counterexample -/

/-- C3 counterexample: in this two-slide deck the second slide is classified
TOC through the run-tracking branch, whose record level is
`len(current_hierarchy) + 1 = 2`, not 1.  This falsifies the claim that TOC
records are pinned to level 1. -/
theorem toc_level_two_counter :
    contentTypeAt c3deck 1 = some tocTypeStr ∧ levelAt c3deck 1 = some 2 :=
  ⟨by decide, by decide⟩

/-! ## C5: counterexample and amended scenario -/

/-- C5 counterexample: the non-first, non-last slide with title
`1.1 数据预处理` and slide text weight 40 is NOT classified SectionTitle:
the chapter check runs first and the title matches the chapter pattern
`^\d+[、\.]\s*.+$` (the `\d+` matches `1` and `[、\.]` matches the dot of
`1.1`). -/
theorem section_scenario_counter :
    count_slide_text_chars c5s1 = 40 ∧ c5deck.length = 3 ∧
      contentTypeAt c5deck 1 ≠ some sectionTitleStr :=
  ⟨by decide, rfl, by decide⟩

/-- C5 amended: the slide of the scenario (title `1.1 数据预处理`, weight 40,
neither first nor last) is classified ChapterTitle (章节标题) with level 2,
because the chapter-title check precedes the section-title check and the
chapter pattern `^\d+[、\.]\s*.+$` matches the title. -/
theorem chapter_scenario_amended :
    count_slide_text_chars c5s1 = 40 ∧ c5deck.length = 3 ∧
      contentTypeAt c5deck 1 = some chapterTitleStr ∧ levelAt c5deck 1 = some 2 :=
  ⟨by decide, rfl, by decide, by decide⟩

/-! ## C6: counterexample, amended theorem and witness -/

/-- C6 counterexample: in this two-slide deck whose last slide's only text is
the title `谢谢观看`, the last record carries the generic ending type
`结尾页`, not `致谢`: the Acknowledgement sub-classification of
`_detect_end_page` inspects only the joined content/bullet text, which is
empty here, and never the title.  This falsifies the claimed contentType. -/
theorem thanks_scenario_counter :
    c6deck.length = 2 ∧ c6s1.title = ("谢谢观看").data ∧ c6s1.content = [] ∧
      c6s1.bullet_points = [] ∧ contentTypeAt c6deck 1 ≠ some thanksTypeStr ∧
      contentTypeAt c6deck 1 = some endPageStr :=
  ⟨rfl, rfl, rfl, rfl, by decide, by decide⟩

theorem is_toc_improved_no_kw (slide : SlideContent) (i : Nat) (st : AnalyzerState)
    (h : toc_has_keyword slide = false) :
    is_toc_slide_improved slide i st = (false, st) := by
  unfold is_toc_slide_improved
  rw [h]
  simp

/-- C6 amended: in every multi-slide deck whose last slide's only text is the
title `谢谢观看` (no paragraphs, no bullets), the last record has contentType
EndPage (结尾页), level 1, and isEndSection true.  The original claim's
contentType Acknowledgement (致谢) does not hold, because the sub-type
keywords are only matched against paragraph/bullet text. -/
theorem thanks_last_slide_amended (slides : List SlideContent) (sl : SlideContent)
    (h2 : 2 ≤ slides.length)
    (hget : slides.get? (slides.length - 1) = some sl)
    (ht : sl.title = ("谢谢观看").data)
    (hc : sl.content = []) (hb : sl.bullet_points = []) :
    oholds (fun r => r.content_type = endPageStr ∧ r.hierarchical_level = 1 ∧
        r.is_end_section = true)
      ((analyze_hierarchical_structure slides).get? (slides.length - 1)) := by
  cases slides with
  | nil => simp at h2
  | cons first rest =>
    have hlen1 : 1 ≤ rest.length := by
      simp only [List.length_cons] at h2
      omega
    have hidx : (first :: rest).length - 1 = rest.length := by
      simp only [List.length_cons]
      omega
    rw [hidx] at hget ⊢
    have hlt : rest.length < (analyze_hierarchical_structure (first :: rest)).length := by
      rw [analyze_length.1]
      simp only [List.length_cons]
      omega
    obtain ⟨r, hg⟩ : ∃ r,
        (analyze_hierarchical_structure (first :: rest)).get? rest.length = some r :=
      ⟨_, List.get?_eq_get hlt⟩
    rw [hg]
    obtain ⟨k, hk⟩ : ∃ k, rest.length = k + 1 := ⟨rest.length - 1, by omega⟩
    rw [hk] at hg
    obtain ⟨sl', st', hget', hr⟩ := analyze_get?_succ_ex first rest k r hg
    have hsl : sl' = sl := by
      rw [hk, List.get?_cons_succ, hget'] at hget
      exact Option.some.inj hget
    subst hsl
    have hkw : toc_has_keyword sl' = false := by
      unfold toc_has_keyword
      rw [ht, hc, hb]
      decide
    have htoc : (is_toc_slide_improved sl' (1 + k) st').1 = false := by
      rw [is_toc_improved_no_kw sl' (1 + k) st' hkw]
    have hend : detect_end_page sl' (1 + k) (rest.length + 1) = (true, endPageStr) := by
      unfold detect_end_page
      rw [if_neg (show ¬(1 + k ≠ rest.length + 1 - 1) by omega)]
      rw [ht, hc, hb]
      have hcond : (end_keywords.any fun kw =>
          pyIn kw (lowerStr (joinSp (([] : List Str) ++ ([] : List Str)))) ||
            pyIn kw (lowerStr (("谢谢观看").data))) = true := by decide
      rw [if_pos hcond]
      decide
    rw [hr, (analyzeStep_end (rest.length + 1) (1 + k) sl' st' htoc (by rw [hend])).1, hend]
    exact ⟨rfl, rfl, rfl⟩

/-- Witness for the amended C6 theorem on a concrete two-slide deck. -/
theorem thanks_last_slide_witness :
    2 ≤ c6deck.length ∧ c6deck.get? (c6deck.length - 1) = some c6s1 ∧
      oholds (fun r => r.content_type = endPageStr ∧ r.hierarchical_level = 1 ∧
          r.is_end_section = true)
        ((analyze_hierarchical_structure c6deck).get? (c6deck.length - 1)) :=
  ⟨by decide, by decide,
    thanks_last_slide_amended c6deck c6s1 (by decide) (by decide) rfl rfl rfl⟩

/-! ## C7: path frame effects of TOC and ending slides -/

theorem is_toc_improved_path (slide : SlideContent) (i : Nat) (st : AnalyzerState) :
    ((is_toc_slide_improved slide i st).2).path = st.path := by
  unfold is_toc_slide_improved
  split_ifs with h1 h2
  · rfl
  · cases hgl : st.tocSlides.getLast? with
    | none => rfl
    | some lastIdx =>
      show (if i = lastIdx + 1 then
          ((true, ⟨st.path, st.tocFound, st.tocSlides ++ [i]⟩) : Bool × AnalyzerState)
        else (false, st)).2.path = st.path
      split_ifs <;> rfl
  · rfl

/-- C7 amended: a slide taken by the TOC branch is recorded with a snapshot
of the hierarchy path as it stood before that slide's classification, but the
running path is then modified: `目录` (or `大纲`, when the slide's title is
`大纲`) is appended unless one of the two is already present.  A slide taken
by the ending branch is recorded with the fixed path `[结尾部分]` (not a
snapshot of the prior path) and the running path is reset to `[结尾部分]`.
The original claim that neither kind of slide modifies the running path, and
that ending slides record a snapshot, fails; see the counterexample. -/
theorem toc_end_path_updates (total i : Nat) (slide : SlideContent) (st : AnalyzerState) :
    ((is_toc_slide_improved slide i st).1 = true →
      (analyzeStep total i slide st).1.parent_titles = st.path ∧
        ((analyzeStep total i slide st).2).path =
          (if tocTypeStr ∉ st.path ∧ outlineWordStr ∉ st.path then
            st.path ++ [if slide.title ≠ outlineWordStr then tocTypeStr else outlineWordStr]
          else st.path)) ∧
    ((is_toc_slide_improved slide i st).1 = false →
      (detect_end_page slide i total).1 = true →
      (analyzeStep total i slide st).1.parent_titles = [endSectionStr] ∧
        ((analyzeStep total i slide st).2).path = [endSectionStr]) := by
  constructor
  · intro h1
    rw [analyzeStep_toc total i slide st h1, analyzeStep_toc_state total i slide st h1,
      is_toc_improved_path slide i st]
    exact ⟨rfl, rfl⟩
  · intro h1 h2
    obtain ⟨hrec, hpath⟩ := analyzeStep_end total i slide st h1 h2
    rw [hrec]
    exact ⟨rfl, hpath⟩

/-- C7 counterexample: in the concrete four-slide deck, the record after the
TOC slide carries parent path `[標题0, 目录]` while the TOC record's own
snapshot is `[标题0]`: the TOC slide appended `目录` to the running path.
The ending record carries the fixed path `[结尾部分]`, not a snapshot of the
path `[标题0, 目录]` valid before its classification.  Both parts contradict
the claim that TOC/ending slides leave the running path unmodified and are
recorded with pre-classification snapshots. -/
theorem toc_modifies_path_counter :
    parentAt c7deck 1 = some [c7title0] ∧
      parentAt c7deck 2 = some [c7title0, tocTypeStr] ∧
      parentAt c7deck 3 = some [endSectionStr] :=
  ⟨by decide, by decide, by decide⟩

/-- Witness for the amended C7 theorem, covering both the TOC branch and the
ending branch at concrete inputs. -/
theorem toc_end_path_updates_witness :
    (is_toc_slide_improved c7s1 1 c7state0).1 = true ∧
      (analyzeStep 4 1 c7s1 c7state0).1.parent_titles = c7state0.path ∧
      ((analyzeStep 4 1 c7s1 c7state0).2).path = c7state0.path ++ [tocTypeStr] ∧
      (is_toc_slide_improved c7s3 3 c7state0).1 = false ∧
      (detect_end_page c7s3 3 4).1 = true ∧
      (analyzeStep 4 3 c7s3 c7state0).1.parent_titles = [endSectionStr] ∧
      ((analyzeStep 4 3 c7s3 c7state0).2).path = [endSectionStr] := by
  have h1 := (toc_end_path_updates 4 1 c7s1 c7state0).1 (by decide)
  have h2 := (toc_end_path_updates 4 3 c7s3 c7state0).2 (by decide) (by decide)
  exact ⟨by decide, h1.1, h1.2.trans (by decide), by decide, by decide, h2.1, h2.2⟩

end PPT
